import Mathlib

/-!
Verification of the client-side GraphQL data-fetching layer
(`src/modules/client.ts`): a response cache keyed by a hash of the
serialized request, a typename extractor, a subscription registry, and
the `executeQuery` / `executeMutation` gateway methods.

The embedding models parsed JSON values as an inductive type `JValue`
(objects keep their field insertion order, as JavaScript objects do),
the client's mutable fields `store` and `subscriptions` as an explicit
`ClientState`, and one network exchange as a `Transport` value (the
parsed JSON response, or a transport failure caught by `.catch`).
Each gateway call is a pure function from the current state and the
transport's answer to the next state, the settled outcome of the
promise, whether `fetch` was invoked, and the list of subscriber
callback invocations (id, arguments) it performed.
-/

/-- Parsed JSON value. Objects are ordered association lists of fields,
mirroring JavaScript property insertion order; numbers are modelled as
integers (the fragment the client manipulates never depends on
non-integer numerics). -/
inductive JValue where
  | null : JValue
  | bool : Bool → JValue
  | num : Int → JValue
  | str : String → JValue
  | arr : List JValue → JValue
  | obj : List (String × JValue) → JValue

/-- JavaScript truthiness of a parsed JSON value: `null`, `false`, `0`
and the empty string are falsy; every object and array is truthy. -/
def truthy : JValue → Bool
  | .null => false
  | .bool b => b
  | .num n => n != 0
  | .str s => !s.isEmpty
  | .arr _ => true
  | .obj _ => true

/-- Truthiness of a JavaScript property read that may be `undefined`
(absent key): `undefined` is falsy. -/
def truthyOpt : Option JValue → Bool
  | none => false
  | some v => truthy v

/-- First field with the given key in an object's field list
(JavaScript property lookup; keys of a real JS object are unique, so
"first" is exact). -/
def lookupField (k : String) (fs : List (String × JValue)) : Option JValue :=
  (fs.find? (fun p => p.1 == k)).map (fun p => p.2)

/-- JavaScript property read `v.data`-style on an arbitrary parsed
value: objects yield the field (or `undefined` = `none`), primitives
and arrays yield `undefined`. Reading a property of `null` throws a
TypeError; callers of this function handle `.null` separately. -/
def responseDataField : JValue → Option JValue
  | .obj fs => lookupField "data" fs
  | _ => none

/-- JavaScript property assignment `store[k] = v` on an object with
unique keys: overwrite the value in place at the (first) occurrence of
the key if it exists, otherwise append the new key at the end. -/
def storePut (k : String) (v : JValue) : List (String × JValue) →
    List (String × JValue)
  | [] => [(k, v)]
  | p :: s => if p.1 == k then (k, v) :: s else p :: storePut k v s

/-- Escape of one character inside a JSON string literal, for the
escapes `JSON.stringify` produces on the payloads this client handles
(quote, backslash and the common control characters). -/
def jsonEscapeChar (c : Char) : String :=
  if c = '"' then "\\\""
  else if c = '\\' then "\\\\"
  else if c = '\n' then "\\n"
  else if c = '\t' then "\\t"
  else if c = '\r' then "\\r"
  else String.singleton c

/-- Escape of a whole string for a JSON string literal. -/
def jsonEscape (s : String) : String :=
  String.join (s.toList.map jsonEscapeChar)

mutual
/-- `JSON.stringify` on a parsed JSON value (ECMA-262 `SerializeJSONProperty`
restricted to JSON-representable values): object fields are emitted in
insertion order — `JSON.stringify` performs no key sorting. -/
def stringifyJValue : JValue → String
  | .null => "null"
  | .bool b => if b then "true" else "false"
  | .num n => toString n
  | .str s => "\"" ++ jsonEscape s ++ "\""
  | .arr xs => "[" ++ stringifyElems xs ++ "]"
  | .obj fs => "\x7b" ++ stringifyFields fs ++ "\x7d"

/-- Comma-separated serialization of array elements. -/
def stringifyElems : List JValue → String
  | [] => ""
  | [x] => stringifyJValue x
  | x :: y :: xs => stringifyJValue x ++ "," ++ stringifyElems (y :: xs)

/-- Comma-separated serialization of object fields, in list order. -/
def stringifyFields : List (String × JValue) → String
  | [] => ""
  | [(k, v)] => "\"" ++ jsonEscape k ++ "\":" ++ stringifyJValue v
  | (k, v) :: f :: fs =>
      "\"" ++ jsonEscape k ++ "\":" ++ stringifyJValue v ++ "," ++
        stringifyFields (f :: fs)
end

/-- Modelled from the spec: `hashString` lives in `src/modules/hash.ts`,
which is not part of the provided sources. The spec contracts only that
the hasher is a pure, deterministic, total function on strings whose
collisions are negligible; it is modelled here as an injective encoding
(the identity), the spec's idealization of a collision-free digest. -/
def hashString (s : String) : String := s

mutual
/-- Modelled from the spec: `gankTypeNamesFromResponse` lives in
`src/modules/typenames.ts`, which is not part of the provided sources.
Per spec §4.2 it is a depth-first walk collecting every `__typename`
field holding a string, anywhere in the tree, recursing into arrays and
into every non-discriminator field of objects; absent or non-string
discriminators are ignored; the result is deduplicated by
`gankTypeNamesFromResponse` below. -/
def collectTypeNames : JValue → List String
  | .null => []
  | .bool _ => []
  | .num _ => []
  | .str _ => []
  | .arr xs => collectTypeNamesList xs
  | .obj fs =>
      (match lookupField "__typename" fs with
        | some (.str s) => [s]
        | _ => []) ++ collectTypeNamesFields fs

/-- Collection over the elements of an array. -/
def collectTypeNamesList : List JValue → List String
  | [] => []
  | x :: xs => collectTypeNames x ++ collectTypeNamesList xs

/-- Collection over the non-discriminator fields of an object. -/
def collectTypeNamesFields : List (String × JValue) → List String
  | [] => []
  | (k, v) :: fs =>
      (if k == "__typename" then [] else collectTypeNames v) ++
        collectTypeNamesFields fs
end

/-- Modelled from the spec: the typename extractor, deduplicated
(spec §4.2: "a deduplicated ordered sequence"). -/
def gankTypeNamesFromResponse (v : JValue) : List String :=
  (collectTypeNames v).eraseDups

/-- A query or mutation request: `{ query, variables }`
(`IQuery` / `IMutation`). -/
structure Request where
  query : String
  «variables» : JValue

/-- The POST body `JSON.stringify({ query, variables })` built by both
`executeQuery` and `executeMutation`. -/
def requestBody (r : Request) : String :=
  stringifyJValue (.obj [("query", .str r.query), ("variables", r.«variables»)])

/-- The mutable fields of a `Client` that the gateway methods touch:
the response cache `this.store` (hash → response data) and the
registered subscription ids `this.subscriptions` (each id keyed a
callback; callbacks themselves are opaque external observers, so the
registry is modelled by its key set in insertion order). -/
structure ClientState where
  store : List (String × JValue)
  subscriptions : List String

/-- Outcome of one network exchange: the parsed JSON of
`fetch(...).then(res => res.json())`, or a failure delivered to
`.catch` (connectivity error, non-JSON body, ...). -/
inductive Transport where
  | ok : JValue → Transport
  | fail : JValue → Transport

/-- How a gateway promise settles when it rejects. -/
inductive Failure where
  /-- `reject({ message: 'No data' })` — response without truthy `data`. -/
  | noData : Failure
  /-- `reject(e)` with the transport's own error, via `.catch`. -/
  | transportErr : JValue → Failure
  /-- The TypeError thrown by `response.data` when the parsed response
  is `null`, which lands in `.catch` and is passed to `reject`. -/
  | typeError : Failure

/-- How an `executeQuery` promise settles. -/
inductive QueryOutcome where
  | resolved : JValue → List String → QueryOutcome
  | rejected : Failure → QueryOutcome

/-- Result of one `executeQuery` call: next client state, settled
outcome, and whether `fetch` was invoked. -/
structure QueryResult where
  state : ClientState
  outcome : QueryOutcome
  fetched : Bool

/-- `Client.executeQuery(queryObject, skipCache)` as a function of the
current state and the transport's answer (consulted only on the fetch
path). Mirrors `client.ts` lines 60–113: serialize, hash, serve from
cache when `this.store[hash]` is truthy and `skipCache` is false,
otherwise POST and either cache-and-resolve the truthy `response.data`
or reject. -/
def executeQuery (st : ClientState) (t : Transport) (q : Request)
    (skipCache : Bool) : QueryResult :=
  let hash := hashString (requestBody q)
  if truthyOpt (lookupField hash st.store) && !skipCache then
    let cached := (lookupField hash st.store).getD .null
    { state := st
      outcome := .resolved cached (gankTypeNamesFromResponse cached)
      fetched := false }
  else
    match t with
    | .fail e => { state := st, outcome := .rejected (.transportErr e), fetched := true }
    | .ok .null => { state := st, outcome := .rejected .typeError, fetched := true }
    | .ok response =>
        match responseDataField response with
        | some d =>
            if truthy d then
              { state := { st with store := storePut hash d st.store }
                outcome := .resolved d (gankTypeNamesFromResponse d)
                fetched := true }
            else
              { state := st, outcome := .rejected .noData, fetched := true }
        | none => { state := st, outcome := .rejected .noData, fetched := true }

/-- `Client.updateSubscribers(typenames, changes)`: invoke every
registered callback with the pair `(typenames, changes)`. The returned
list records one invocation event `(id, (typenames, changes))` per
registered subscription id, in key order. -/
def updateSubscribers (typenames : List String) (changes : JValue)
    (subs : List String) : List (String × (List String × JValue)) :=
  subs.map (fun id => (id, (typenames, changes)))

/-- How an `executeMutation` promise settles. -/
inductive MutationOutcome where
  | resolved : JValue → MutationOutcome
  | rejected : Failure → MutationOutcome

/-- Result of one `executeMutation` call: next client state, settled
outcome, and the subscriber callback invocations performed. -/
structure MutationResult where
  state : ClientState
  outcome : MutationOutcome
  events : List (String × (List String × JValue))

/-- `Client.executeMutation(mutationObject)` as a function of the
current state and the transport's answer. Mirrors `client.ts` lines
115–154: serialize and POST unconditionally; on truthy `response.data`
extract typenames, call `updateSubscribers(typeNames, response)` with
the FULL parsed response, and resolve with `response.data`; otherwise
reject. The cache is never consulted or written. -/
def executeMutation (st : ClientState) (t : Transport) (m : Request) :
    MutationResult :=
  let _body := requestBody m
  match t with
  | .fail e => { state := st, outcome := .rejected (.transportErr e), events := [] }
  | .ok .null => { state := st, outcome := .rejected .typeError, events := [] }
  | .ok response =>
      match responseDataField response with
      | some d =>
          if truthy d then
            { state := st
              outcome := .resolved d
              events := updateSubscribers (gankTypeNamesFromResponse d)
                response st.subscriptions }
          else
            { state := st, outcome := .rejected .noData, events := [] }
      | none => { state := st, outcome := .rejected .noData, events := [] }

/-- `Client.subscribe(callback)`: store the callback under a fresh
unique id and return the id. The id generator (`uuid.v4`) is an
injected source of fresh strings, so the id is a parameter; assigning
under an already-present key would overwrite the callback and leave the
key set unchanged. -/
def subscribe (id : String) (st : ClientState) : ClientState :=
  if st.subscriptions.contains id then st
  else { st with subscriptions := st.subscriptions ++ [id] }

/-- `Client.unsubscribe(id)`: `delete this.subscriptions[id]` — remove
the key if present (JS object keys are unique, so removing every
occurrence coincides with deleting the one entry); a no-op otherwise,
never a failure. -/
def unsubscribe (id : String) (st : ClientState) : ClientState :=
  { st with subscriptions := st.subscriptions.filter (fun s => s ≠ id) }

/-- The client state right after the constructor ran:
`this.store = {}` and `this.subscriptions = {}`. -/
def initialClientState : ClientState := { store := [], subscriptions := [] }

/-- Client states reachable from construction through any sequence of
gateway calls (with arbitrary transport answers and fresh ids). -/
inductive Reachable : ClientState → Prop where
  | init : Reachable initialClientState
  | query (st : ClientState) (t : Transport) (q : Request) (sk : Bool) :
      Reachable st → Reachable (executeQuery st t q sk).state
  | mutation (st : ClientState) (t : Transport) (m : Request) :
      Reachable st → Reachable (executeMutation st t m).state
  | sub (st : ClientState) (id : String) :
      Reachable st → Reachable (subscribe id st)
  | unsub (st : ClientState) (id : String) :
      Reachable st → Reachable (unsubscribe id st)

/-- Every value stored in the cache is truthy. -/
def StoreTruthy (s : List (String × JValue)) : Prop :=
  ∀ p ∈ s, truthy p.2 = true

/-- Truthiness of a cache lookup coincides with presence of the key:
the test `this.store[hash]` used by `executeQuery` distinguishes a hit
from a miss exactly when this holds. -/
def CacheHitAgreesWithPresence (s : List (String × JValue)) : Prop :=
  ∀ k, truthyOpt (lookupField k s) = (lookupField k s).isSome

/-- Sample response data carrying one typename. -/
def userData : JValue := .obj [("__typename", .str "User")]

/-- Sample successful transport response `{data: {__typename: "User"}}`. -/
def okUserResponse : JValue := .obj [("data", userData)]

/-- Sample request. -/
def sampleRequest : Request := { query := "q", «variables» := .obj [] }

/-- Sample request whose variables are `{a: 1, b: 2}` in that insertion
order. -/
def reqVarsAB : Request :=
  { query := "q", «variables» := .obj [("a", .num 1), ("b", .num 2)] }

/-- Sample request with the same query and the same variable bindings,
inserted in the opposite order `{b: 2, a: 1}`. -/
def reqVarsBA : Request :=
  { query := "q", «variables» := .obj [("b", .num 2), ("a", .num 1)] }

/-- A client state holding a stale cache entry under `sampleRequest`'s
hash. -/
def staleEntryState : ClientState :=
  { store := [(hashString (requestBody sampleRequest), .str "old")]
    subscriptions := [] }

/-- A client state with two registered subscription ids. -/
def twoSubsState : ClientState := { store := [], subscriptions := ["s1", "s2"] }

theorem lookupField_storePut_self (k : String) (v : JValue)
    (s : List (String × JValue)) : lookupField k (storePut k v s) = some v := by
  induction s with
  | nil => simp [storePut, lookupField]
  | cons p s ih =>
      by_cases h : p.1 = k
      · simp [storePut, h, lookupField]
      · simp only [storePut, lookupField] at ih ⊢
        simp [h, List.find?, ih]

theorem storePut_mem (k : String) (v : JValue) (s : List (String × JValue))
    (p : String × JValue) (hp : p ∈ storePut k v s) : p ∈ s ∨ p = (k, v) := by
  induction s with
  | nil => simp [storePut] at hp; simp [hp]
  | cons q s ih =>
      by_cases h : q.1 = k
      · simp [storePut, h] at hp
        rcases hp with hp | hp
        · right; simp [hp]
        · left; simp [hp]
      · simp [storePut, h] at hp
        rcases hp with hp | hp
        · left; simp [hp]
        · rcases ih hp with h' | h'
          · left; simp [h']
          · right; exact h'

theorem storeTruthy_storePut (k : String) (v : JValue)
    (s : List (String × JValue)) (hs : StoreTruthy s) (hv : truthy v = true) :
    StoreTruthy (storePut k v s) := by
  intro p hp
  rcases storePut_mem k v s p hp with h | h
  · exact hs p h
  · simp [h, hv]

theorem lookupField_mem (k : String) (s : List (String × JValue)) (v : JValue)
    (h : lookupField k s = some v) : ∃ p ∈ s, p.2 = v := by
  unfold lookupField at h
  rcases Option.map_eq_some'.mp h with ⟨p, hfind, hv⟩
  exact ⟨p, List.mem_of_find?_eq_some hfind, hv⟩

theorem storeTruthy_cacheHit (s : List (String × JValue)) (hs : StoreTruthy s) :
    CacheHitAgreesWithPresence s := by
  intro k
  cases h : lookupField k s with
  | none => simp [truthyOpt]
  | some v =>
      rcases lookupField_mem k s v h with ⟨p, hp, hpv⟩
      simp [truthyOpt, hpv ▸ hs p hp]


theorem executeQuery_store_shape (st : ClientState) (t : Transport)
    (q : Request) (sk : Bool) :
    (executeQuery st t q sk).state.store = st.store ∨
    ∃ d, truthy d = true ∧
      (executeQuery st t q sk).state.store
        = storePut (hashString (requestBody q)) d st.store := by
  cases t with
  | fail e =>
      simp only [executeQuery]
      split <;> (left; rfl)
  | ok r =>
      cases r with
      | null =>
          simp only [executeQuery]
          split <;> (left; rfl)
      | bool b =>
          simp only [executeQuery]
          split <;> (left; rfl)
      | num n =>
          simp only [executeQuery]
          split <;> (left; rfl)
      | str s =>
          simp only [executeQuery]
          split <;> (left; rfl)
      | arr xs =>
          simp only [executeQuery]
          split <;> (left; rfl)
      | obj fs =>
          cases h : lookupField "data" fs with
          | none =>
              simp only [executeQuery, responseDataField, h]
              split <;> (left; rfl)
          | some d =>
              by_cases ht : truthy d = true
              · simp only [executeQuery, responseDataField, h, ht, if_true]
                split
                · left; rfl
                · right; exact ⟨d, ht, rfl⟩
              · simp only [executeQuery, responseDataField, h, ht, if_false]
                split <;> (left; rfl)

theorem executeQuery_subscriptions (st : ClientState) (t : Transport)
    (q : Request) (sk : Bool) :
    (executeQuery st t q sk).state.subscriptions = st.subscriptions := by
  cases t with
  | fail e =>
      simp only [executeQuery]
      split <;> rfl
  | ok r =>
      cases r with
      | null =>
          simp only [executeQuery]
          split <;> rfl
      | bool b =>
          simp only [executeQuery]
          split <;> rfl
      | num n =>
          simp only [executeQuery]
          split <;> rfl
      | str s =>
          simp only [executeQuery]
          split <;> rfl
      | arr xs =>
          simp only [executeQuery]
          split <;> rfl
      | obj fs =>
          cases h : lookupField "data" fs with
          | none =>
              simp only [executeQuery, responseDataField, h]
              split <;> rfl
          | some d =>
              by_cases ht : truthy d = true
              · simp only [executeQuery, responseDataField, h, ht, if_true]
                split <;> rfl
              · simp only [executeQuery, responseDataField, h, ht, if_false]
                split <;> rfl

theorem executeMutation_state (st : ClientState) (t : Transport)
    (m : Request) : (executeMutation st t m).state = st := by
  cases t with
  | fail e => rfl
  | ok r =>
      cases r with
      | null => rfl
      | bool b => rfl
      | num n => rfl
      | str s => rfl
      | arr xs => rfl
      | obj fs =>
          cases h : lookupField "data" fs with
          | none => simp only [executeMutation, responseDataField, h]
          | some d =>
              by_cases ht : truthy d = true
              · simp only [executeMutation, responseDataField, h, ht, if_true]
              · simp [executeMutation, responseDataField, h, ht]

theorem subscribe_store (id : String) (st : ClientState) :
    (subscribe id st).store = st.store := by
  unfold subscribe
  split <;> rfl

theorem unsubscribe_store (id : String) (st : ClientState) :
    (unsubscribe id st).store = st.store := rfl

theorem storeTruthy_of_reachable (st : ClientState) (h : Reachable st) :
    StoreTruthy st.store := by
  induction h with
  | init => intro p hp; simp [initialClientState] at hp
  | query st t q sk _ ih =>
      rcases executeQuery_store_shape st t q sk with hs | ⟨d, hd, hs⟩
      · rw [hs]; exact ih
      · rw [hs]; exact storeTruthy_storePut _ d st.store ih hd
  | mutation st t m _ ih => rw [executeMutation_state]; exact ih
  | sub st id _ ih => rw [subscribe_store]; exact ih
  | unsub st id _ ih => rw [unsubscribe_store]; exact ih

/-- Claim C1: for every reachable client state whose cache contains an entry
under the hash of the serialized request, `executeQuery` with
`skipCache = false` resolves without invoking `fetch`, returning data
equal to the stored entry and typeNames equal to its extraction, and
leaves the state unchanged. -/
theorem cacheHit_resolves_without_fetch (st : ClientState) (t : Transport)
    (q : Request) (v : JValue) (hr : Reachable st)
    (hv : lookupField (hashString (requestBody q)) st.store = some v) :
    executeQuery st t q false
      = { state := st
          outcome := .resolved v (gankTypeNamesFromResponse v)
          fetched := false } := by
  have htv : truthy v = true := by
    rcases lookupField_mem _ _ _ hv with ⟨p, hp, hpv⟩
    exact hpv ▸ storeTruthy_of_reachable st hr p hp
  simp only [executeQuery, hv, truthyOpt, htv, Bool.not_false, Bool.and_true,
    if_true, Option.getD_some]

/-- Witness for C1: a state reached by one cache-filling query serves
the second identical query from the cache. -/
theorem cacheHit_resolves_without_fetch_witness :
    executeQuery
        (executeQuery initialClientState (.ok okUserResponse) sampleRequest true).state
        (.fail .null) sampleRequest false
      = { state := (executeQuery initialClientState (.ok okUserResponse) sampleRequest true).state
          outcome := .resolved userData (gankTypeNamesFromResponse userData)
          fetched := false } :=
  cacheHit_resolves_without_fetch _ _ _ _
    (Reachable.query _ _ _ _ Reachable.init) rfl

/-- Claim C2: a transport response `{}` (no `data` key) makes `executeQuery`
(whenever it performed the fetch) and `executeMutation` reject with NoData,
with the client state unchanged and no subscriber callback invoked. -/
theorem noData_rejects_without_sideEffects (st : ClientState) (q m : Request)
    (sk : Bool) :
    (executeQuery st (.ok (.obj [])) q sk).state = st ∧
    ((executeQuery st (.ok (.obj [])) q sk).fetched = true →
      (executeQuery st (.ok (.obj [])) q sk).outcome = .rejected .noData) ∧
    executeMutation st (.ok (.obj [])) m
      = { state := st, outcome := .rejected .noData, events := [] } := by
  have hnone : responseDataField (.obj []) = none := rfl
  refine ⟨?_, ?_, rfl⟩
  · simp only [executeQuery, hnone]
    split <;> rfl
  · intro hf
    simp only [executeQuery, hnone] at hf ⊢
    split at hf
    · exact absurd hf (by simp)
    · rename_i hc
      rw [if_neg hc]

/-- Witness for C2: from the freshly constructed client, a `{}` response
to a fetching query and to a mutation rejects with NoData, leaves the
state unchanged and invokes no callback. -/
theorem noData_rejects_without_sideEffects_witness :
    (executeQuery initialClientState (.ok (.obj [])) sampleRequest true).state
        = initialClientState ∧
    (executeQuery initialClientState (.ok (.obj [])) sampleRequest true).outcome
        = .rejected .noData ∧
    executeMutation initialClientState (.ok (.obj [])) sampleRequest
      = { state := initialClientState, outcome := .rejected .noData, events := [] } :=
  ⟨(noData_rejects_without_sideEffects initialClientState sampleRequest sampleRequest true).1,
   (noData_rejects_without_sideEffects initialClientState sampleRequest sampleRequest true).2.1 rfl,
   (noData_rejects_without_sideEffects initialClientState sampleRequest sampleRequest true).2.2⟩

/-- Claim C8: `executeMutation` never reads or writes the response cache: for
every transport outcome the cache contents after the call are the
cache contents before it (the whole state, subscriptions included, is
untouched). -/
theorem mutation_never_touches_cache (st : ClientState) (t : Transport)
    (m : Request) : (executeMutation st t m).state.store = st.store ∧
    (executeMutation st t m).state = st :=
  ⟨by rw [executeMutation_state], executeMutation_state st t m⟩

/-- Claim C9: `unsubscribe` is idempotent, unsubscribing an unknown or
already-removed id leaves the registry unchanged, and every other
registered id stays registered; `unsubscribe` is a total function, so
it never throws. -/
theorem unsubscribe_idempotent_and_noop (st : ClientState) (id j : String) :
    unsubscribe id (unsubscribe id st) = unsubscribe id st ∧
    (id ∉ st.subscriptions → unsubscribe id st = st) ∧
    (j ∈ st.subscriptions → j ≠ id → j ∈ (unsubscribe id st).subscriptions) := by
  refine ⟨?_, ?_, ?_⟩
  · unfold unsubscribe
    simp [List.filter_filter]
  · intro hid
    unfold unsubscribe
    have hself : st.subscriptions.filter (fun s => s ≠ id) = st.subscriptions := by
      apply List.filter_eq_self.mpr
      intro a ha
      simp only [decide_eq_true_eq]
      exact fun h => hid (h ▸ ha)
    rw [hself]
  · intro hj hne
    unfold unsubscribe
    simp only [List.mem_filter]
    exact ⟨hj, by simp [hne]⟩

/-- Witness for C9 on a registry holding ids `s1`, `s2` and an id `zz`
never issued. -/
theorem unsubscribe_idempotent_and_noop_witness :
    unsubscribe "zz" (unsubscribe "zz" twoSubsState) = unsubscribe "zz" twoSubsState ∧
    unsubscribe "zz" twoSubsState = twoSubsState ∧
    "s1" ∈ (unsubscribe "zz" twoSubsState).subscriptions :=
  ⟨(unsubscribe_idempotent_and_noop twoSubsState "zz" "s1").1,
   (unsubscribe_idempotent_and_noop twoSubsState "zz" "s1").2.1 (by decide),
   (unsubscribe_idempotent_and_noop twoSubsState "zz" "s1").2.2 (by decide) (by decide)⟩

/-- Claim C10: in every reachable client state every cached value is truthy
(writes happen only under the `response.data` truthiness guard), so the
truthiness test `this.store[hash]` used by `executeQuery` coincides
with presence of the key. -/
theorem reachable_cache_values_truthy (st : ClientState) (hr : Reachable st) :
    StoreTruthy st.store ∧ CacheHitAgreesWithPresence st.store :=
  ⟨storeTruthy_of_reachable st hr,
   storeTruthy_cacheHit st.store (storeTruthy_of_reachable st hr)⟩

/-- Witness for C10 at the concrete reachable state produced by one
cache-filling query. -/
theorem reachable_cache_values_truthy_witness :
    StoreTruthy
        (executeQuery initialClientState (.ok okUserResponse) sampleRequest true).state.store ∧
    CacheHitAgreesWithPresence
        (executeQuery initialClientState (.ok okUserResponse) sampleRequest true).state.store :=
  reachable_cache_values_truthy _ (Reachable.query _ _ _ _ Reachable.init)

/-- A client state with exactly one registered subscription id. -/
def oneSubState : ClientState := { store := [], subscriptions := ["s1"] }

theorem executeQuery_skip_fetches (st : ClientState) (t : Transport)
    (q : Request) : (executeQuery st t q true).fetched = true := by
  have hc : ¬ (truthyOpt (lookupField (hashString (requestBody q)) st.store)
      && !true) = true := by simp
  cases t with
  | fail e => simp only [executeQuery, if_neg hc]
  | ok r =>
      cases r with
      | null => simp only [executeQuery, if_neg hc]
      | bool b =>
          simp only [executeQuery, if_neg hc]
          rfl
      | num n =>
          simp only [executeQuery, if_neg hc]
          rfl
      | str s =>
          simp only [executeQuery, if_neg hc]
          rfl
      | arr xs =>
          simp only [executeQuery, if_neg hc]
          rfl
      | obj fs =>
          simp only [executeQuery, responseDataField, if_neg hc]
          cases hd : lookupField "data" fs with
          | none => rfl
          | some d => by_cases ht : truthy d = true <;> simp [ht]

theorem updateSubscribers_snd (tn : List String) (resp : JValue)
    (subs : List String) :
    (updateSubscribers tn resp subs).map Prod.snd
      = List.replicate subs.length (tn, resp) := by
  induction subs with
  | nil => rfl
  | cons s rest ih =>
      simp only [updateSubscribers, List.map_cons, List.length_cons,
        List.replicate_succ] at ih ⊢
      rw [ih]

theorem updateSubscribers_filter (tn : List String) (resp : JValue)
    (subs : List String) (id : String) :
    ((updateSubscribers tn resp subs).filter (fun e => e.1 == id)).length
      = subs.count id := by
  induction subs with
  | nil => rfl
  | cons s rest ih =>
      simp only [updateSubscribers] at ih ⊢
      by_cases h : (s == id) = true
      · simp [List.filter_cons, h, ih, List.count_cons]
      · simp [List.filter_cons, h, ih, List.count_cons]

/-- Counterexample to claim C3: the response `{data: null}` has its `data` field
present, yet `executeQuery` rejects with NoData and stores nothing —
the source guards on truthiness of `response.data`, not on presence of
the field. -/
theorem query_data_present_yet_noData :
    lookupField "data" [("data", JValue.null)] = some JValue.null ∧
    (executeQuery initialClientState (.ok (.obj [("data", .null)]))
        sampleRequest true).fetched = true ∧
    (executeQuery initialClientState (.ok (.obj [("data", .null)]))
        sampleRequest true).outcome = .rejected .noData ∧
    (executeQuery initialClientState (.ok (.obj [("data", .null)]))
        sampleRequest true).state = initialClientState :=
  ⟨rfl, rfl, rfl, rfl⟩

/-- Claim C3 as amended: on the fetch path with an object response,
`executeQuery` stores the `data` field's value under the request hash
and resolves with it (typeNames extracted from it) when that value is
truthy; it rejects with NoData exactly when the `data` field is absent
or its value is falsy, leaving the cache unchanged. -/
theorem query_fetch_stores_truthy_data (st : ClientState) (q : Request)
    (sk : Bool) (fs : List (String × JValue))
    (hf : (executeQuery st (.ok (.obj fs)) q sk).fetched = true) :
    (truthyOpt (lookupField "data" fs) = true →
      (executeQuery st (.ok (.obj fs)) q sk).outcome
          = .resolved ((lookupField "data" fs).getD .null)
              (gankTypeNamesFromResponse ((lookupField "data" fs).getD .null)) ∧
      (executeQuery st (.ok (.obj fs)) q sk).state.store
          = storePut (hashString (requestBody q))
              ((lookupField "data" fs).getD .null) st.store) ∧
    (truthyOpt (lookupField "data" fs) = false →
      (executeQuery st (.ok (.obj fs)) q sk).state.store = st.store) ∧
    ((executeQuery st (.ok (.obj fs)) q sk).outcome = .rejected .noData
      ↔ truthyOpt (lookupField "data" fs) = false) := by
  by_cases hc : (truthyOpt (lookupField (hashString (requestBody q)) st.store)
      && !sk) = true
  · exfalso
    simp only [executeQuery, if_pos hc] at hf
    exact absurd hf (by simp)
  · cases hd : lookupField "data" fs with
    | none =>
        simp only [executeQuery, responseDataField, hd, if_neg hc]
        refine ⟨?_, fun _ => trivial, ?_⟩
        · intro h
          exact absurd h (by simp [truthyOpt])
        · simp [truthyOpt]
    | some d =>
        by_cases ht : truthy d = true
        · simp only [executeQuery, responseDataField, hd, ht, if_neg hc, if_true]
          refine ⟨fun _ => ⟨rfl, rfl⟩, ?_, ?_⟩
          · intro h
            exact absurd h (by simp [truthyOpt, ht])
          · simp [truthyOpt, ht]
        · have ht' : truthy d = false := by
            cases hb : truthy d
            · rfl
            · exact absurd hb ht
          simp only [executeQuery, responseDataField, hd, ht', if_neg hc,
            Bool.false_eq_true, if_false]
          refine ⟨?_, fun _ => trivial, ?_⟩
          · intro h
            exact absurd h (by simp [truthyOpt, ht'])
          · simp [truthyOpt, ht']

/-- Witness for C3 at the response `{data: {__typename: "User"}}` from
the fresh client: the data field is stored and the query resolves. -/
theorem query_fetch_stores_truthy_data_witness :
    ((executeQuery initialClientState (.ok okUserResponse) sampleRequest true).outcome
        = .resolved ((lookupField "data" [("data", userData)]).getD .null)
            (gankTypeNamesFromResponse ((lookupField "data" [("data", userData)]).getD .null)) ∧
      (executeQuery initialClientState (.ok okUserResponse) sampleRequest true).state.store
        = storePut (hashString (requestBody sampleRequest))
            ((lookupField "data" [("data", userData)]).getD .null)
            initialClientState.store) ∧
    ((executeQuery initialClientState (.ok okUserResponse) sampleRequest true).outcome
        = .rejected .noData
      ↔ truthyOpt (lookupField "data" [("data", userData)]) = false) :=
  ⟨(query_fetch_stores_truthy_data initialClientState sampleRequest true
      [("data", userData)] rfl).1 rfl,
   (query_fetch_stores_truthy_data initialClientState sampleRequest true
      [("data", userData)] rfl).2.2⟩

/-- Counterexample to claim C4: with one registered subscriber, a successful
mutation invokes the callback with second argument the FULL parsed
response `{data: ...}`, which is not the response's `data` field. -/
theorem mutation_callback_gets_full_response_not_data :
    (executeMutation oneSubState (.ok okUserResponse) sampleRequest).events
        = [("s1", (gankTypeNamesFromResponse userData, okUserResponse))] ∧
    okUserResponse ≠ userData := by
  refine ⟨rfl, ?_⟩
  intro h
  exact absurd (congrArg stringifyJValue h) (by decide)

/-- Claim C4 as amended: on every data-bearing mutation response, every
registered callback's second argument is the full parsed transport
response (the code calls `updateSubscribers(typeNames, response)`), not
only its `data` field. -/
theorem mutation_broadcast_passes_full_response (st : ClientState)
    (m : Request) (fs : List (String × JValue)) (d : JValue)
    (hd : lookupField "data" fs = some d) (ht : truthy d = true) :
    (executeMutation st (.ok (.obj fs)) m).events
      = st.subscriptions.map
          (fun id => (id, (gankTypeNamesFromResponse d, JValue.obj fs))) := by
  simp only [executeMutation, responseDataField, hd, ht, if_true]
  rfl

/-- Witness for C4 (amended) with one registered subscriber. -/
theorem mutation_broadcast_passes_full_response_witness :
    (executeMutation oneSubState (.ok (.obj [("data", userData)])) sampleRequest).events
      = oneSubState.subscriptions.map
          (fun id => (id, (gankTypeNamesFromResponse userData, JValue.obj [("data", userData)]))) :=
  mutation_broadcast_passes_full_response oneSubState sampleRequest
    [("data", userData)] userData rfl rfl

/-- Counterexample to claim C5: two requests with equal query strings whose
variables hold the same key-value pairs in different insertion orders
serialize to different bodies and hash to different cache keys:
`JSON.stringify` preserves insertion order and sorts no keys. -/
theorem serialization_insertion_order_sensitive :
    reqVarsAB.query = reqVarsBA.query ∧
    [("a", JValue.num 1), ("b", JValue.num 2)].Perm
        [("b", JValue.num 2), ("a", JValue.num 1)] ∧
    requestBody reqVarsAB ≠ requestBody reqVarsBA ∧
    hashString (requestBody reqVarsAB) ≠ hashString (requestBody reqVarsBA) := by
  refine ⟨rfl, List.Perm.swap _ _ _, ?_, ?_⟩
  · decide
  · decide

/-- Claim C5 as amended: requests with equal query strings and identical
variables values (the same field list, in the same order) produce the
same serialized body and therefore the same cache hash. -/
theorem serialization_deterministic (r1 r2 : Request)
    (hq : r1.query = r2.query) (hv : r1.«variables» = r2.«variables») :
    requestBody r1 = requestBody r2 ∧
    hashString (requestBody r1) = hashString (requestBody r2) := by
  have hb : requestBody r1 = requestBody r2 := by
    unfold requestBody
    rw [hq, hv]
  exact ⟨hb, by rw [hb]⟩

/-- Witness for C5 (amended) on two syntactically distinct but equal
requests. -/
theorem serialization_deterministic_witness :
    requestBody reqVarsAB
        = requestBody { query := "q", «variables» := .obj [("a", .num 1), ("b", .num 2)] } ∧
    hashString (requestBody reqVarsAB)
        = hashString (requestBody { query := "q", «variables» := .obj [("a", .num 1), ("b", .num 2)] }) :=
  serialization_deterministic _ _ rfl rfl

/-- Claim C6: with `skipCache = true`, `executeQuery` always invokes the
transport, even when a cache entry exists under the request's hash, and
on a data-bearing response it overwrites the entry under that hash with
the newly received data. -/
theorem skipCache_always_fetches_and_overwrites (st : ClientState)
    (t : Transport) (q : Request) (fs : List (String × JValue)) (d : JValue)
    (hd : lookupField "data" fs = some d) (ht : truthy d = true) :
    (executeQuery st t q true).fetched = true ∧
    lookupField (hashString (requestBody q))
        (executeQuery st (.ok (.obj fs)) q true).state.store = some d := by
  refine ⟨executeQuery_skip_fetches st t q, ?_⟩
  have hc : ¬ (truthyOpt (lookupField (hashString (requestBody q)) st.store)
      && !true) = true := by simp
  simp only [executeQuery, responseDataField, hd, ht, if_neg hc, if_true]
  exact lookupField_storePut_self _ _ _

/-- Witness for C6: a state holding a stale truthy entry under the
sample request's hash is refetched and overwritten. -/
theorem skipCache_always_fetches_and_overwrites_witness :
    (executeQuery staleEntryState (.fail .null) sampleRequest true).fetched = true ∧
    lookupField (hashString (requestBody sampleRequest))
        (executeQuery staleEntryState (.ok (.obj [("data", userData)]))
          sampleRequest true).state.store = some userData :=
  skipCache_always_fetches_and_overwrites staleEntryState (.fail .null)
    sampleRequest [("data", userData)] userData rfl rfl

/-- Claim C7: one successful (data-bearing) mutation invokes each of the
registered callbacks exactly once (the registry's keys are unique), and
every invocation receives the same (typenames, response) pair. -/
theorem mutation_fanout_once_each (st : ClientState) (m : Request)
    (fs : List (String × JValue)) (d : JValue)
    (hnd : st.subscriptions.Nodup)
    (hd : lookupField "data" fs = some d) (ht : truthy d = true) :
    ((executeMutation st (.ok (.obj fs)) m).events).map Prod.snd
        = List.replicate st.subscriptions.length
            (gankTypeNamesFromResponse d, JValue.obj fs) ∧
    st.subscriptions.all
        (fun id => ((executeMutation st (.ok (.obj fs)) m).events.filter
            (fun e => e.1 == id)).length == 1) = true := by
  have hev : (executeMutation st (.ok (.obj fs)) m).events
      = updateSubscribers (gankTypeNamesFromResponse d) (.obj fs)
          st.subscriptions := by
    simp only [executeMutation, responseDataField, hd, ht, if_true]
  rw [hev]
  refine ⟨updateSubscribers_snd _ _ _, ?_⟩
  rw [List.all_eq_true]
  intro id hid
  rw [updateSubscribers_filter]
  simp [List.count_eq_one_of_mem hnd hid]

/-- Witness for C7 with two registered subscribers. -/
theorem mutation_fanout_once_each_witness :
    ((executeMutation twoSubsState (.ok (.obj [("data", userData)]))
        sampleRequest).events).map Prod.snd
        = List.replicate twoSubsState.subscriptions.length
            (gankTypeNamesFromResponse userData, JValue.obj [("data", userData)]) ∧
    twoSubsState.subscriptions.all
        (fun id => ((executeMutation twoSubsState (.ok (.obj [("data", userData)]))
            sampleRequest).events.filter (fun e => e.1 == id)).length == 1) = true :=
  mutation_fanout_once_each twoSubsState sampleRequest [("data", userData)]
    userData (by decide) rfl rfl
